/-
  Verification of the HalluShield pipeline (claim extraction, evidence
  retrieval, verification scoring, escalation, decision policy, caching,
  answer assembly) against its natural-language specification.

  Shallow embedding conventions:
  * Text is modelled as `List Nat` of ASCII/Unicode code points (`Str`),
    entering from Lean `String` literals via `strN`.  This models Python
    `str` operations (lower, split, substring containment, replace)
    faithfully on the ASCII range the code manipulates.
  * Python floats are modelled as exact rationals `ℚ`.
  * External calls (LLM generation, web search, the delegated scorer) are
    modelled as explicit environment/oracle parameters; the branching and
    fallback logic around them is translated from the source.
-/
import Mathlib

namespace HalluShield

/-- Code points of a piece of text. -/
abbrev Str := List Nat

/-- Convert a Lean string literal into the code-point model. -/
def strN (s : String) : Str := s.data.map Char.toNat

/-- The apostrophe code point (39), used to build hedging phrases. -/
def apos : Str := [39]

/-! ### Basic Python-string primitives on `Str` -/

/-- Python `str.lower()` restricted to ASCII letters: maps `A`-`Z` (65-90)
to `a`-`z` (97-122), leaving every other code point unchanged. -/
def lowerNat (n : Nat) : Nat := if 65 ≤ n ∧ n ≤ 90 then n + 32 else n

/-- Lowercase a whole string. -/
def lowerStr (s : Str) : Str := s.map lowerNat

/-- Python whitespace for `str.split()` / `str.strip()`:
tab 9, LF 10, VT 11, FF 12, CR 13, space 32. -/
def isWsN (n : Nat) : Bool := n = 9 ∨ n = 10 ∨ n = 11 ∨ n = 12 ∨ n = 13 ∨ n = 32

/-- `startsWith needle hay`: `needle` is a prefix of `hay`. -/
def startsWith : Str → Str → Bool
  | [], _ => true
  | _ :: _, [] => false
  | a :: as, b :: bs => a = b && startsWith as bs

/-- Python `needle in hay`: substring containment. -/
def containsSub (needle : Str) : Str → Bool
  | [] => needle.isEmpty
  | c :: rest => startsWith needle (c :: rest) || containsSub needle rest

/-- Python's binary `max` on rationals, kept as an explicit `if` so that
concrete values evaluate. -/
def qmax (a b : ℚ) : ℚ := if a ≤ b then b else a

/-- Python's binary `min` on rationals. -/
def qmin (a b : ℚ) : ℚ := if a ≤ b then a else b

/-- Python's binary `max` on naturals. -/
def pyMaxNat (a b : Nat) : Nat := if a ≤ b then b else a

/-- Auxiliary word counter: `inWord` records whether the previous character
was part of a word. -/
def wordCountAux : Bool → Str → Nat
  | _, [] => 0
  | inWord, c :: rest =>
    if isWsN c then wordCountAux false rest
    else (if inWord then 0 else 1) + wordCountAux true rest

/-- Number of words of a string, as produced by Python `len(s.split())`
(maximal runs of non-whitespace). -/
def wordCount (s : Str) : Nat := wordCountAux false s

/-- Python `str.strip()`: drop leading and trailing whitespace. -/
def stripStr (s : Str) : Str :=
  ((s.dropWhile (fun c => isWsN c)).reverse.dropWhile (fun c => isWsN c)).reverse

/-- Python `s.replace(pat, rep)` main loop, with fuel bounding the scan
(one unit per consumed character suffices). Assumes `pat` nonempty. -/
def replaceFuel (pat rep : Str) : Nat → Str → Str
  | 0, s => s
  | _ + 1, [] => []
  | n + 1, c :: rest =>
    if startsWith pat (c :: rest) then
      rep ++ replaceFuel pat rep n (List.drop (pat.length - 1) rest)
    else
      c :: replaceFuel pat rep n rest

/-- Python `s.replace(pat, rep)`: replace every non-overlapping occurrence
left to right; the empty pattern interleaves `rep` around every character. -/
def pyReplace (s pat rep : Str) : Str :=
  if pat.isEmpty then rep ++ s.foldr (fun c acc => c :: (rep ++ acc)) []
  else replaceFuel pat rep s.length s

/-! ### Data model (`hallushield/types.py`) -/

/-- `types.Claim`. -/
structure Claim where
  id : String
  text : Str
  claim_type : String
  source_sentence : Str
  position : Nat
  deriving DecidableEq, Repr

/-- `types.Evidence`. -/
structure Evidence where
  source_url : Str
  snippet : Str
  relevance_score : ℚ
  publish_date : Option Str := none
  credibility_score : ℚ := 1/2
  deriving DecidableEq, Repr

/-- `types.VerificationResult`. -/
structure VerificationResult where
  claim_id : String
  support_score : ℚ
  contradiction_score : ℚ
  neutral_score : ℚ
  evidence_agreement : ℚ
  source_count : ℤ
  evidence_ids : List Str
  deriving DecidableEq, Repr

/-- `types.Decision`. -/
structure Decision where
  claim_id : String
  action : String
  original_claim : Str
  corrected_claim : Option Str := none
  evidence_urls : List Str := []
  confidence : ℚ := 0
  reasoning : String := ""
  deriving DecidableEq, Repr

/-! ### Decision policy (`hallushield/policy.py`) -/

namespace AdaptiveDecisionPolicy

/-- `AdaptiveDecisionPolicy._rule_based_action`. -/
def rule_based_action (verification : VerificationResult) : String :=
  if verification.support_score > 0.85 ∧ verification.contradiction_score < 0.1 then
    "ACCEPT"
  else if verification.contradiction_score > 0.7 then
    "CORRECT"
  else if verification.source_count < 2 ∨ verification.evidence_agreement < 0.5 then
    "ABSTAIN"
  else
    "FLAG_FOR_HUMAN"

/-- `AdaptiveDecisionPolicy._reasoning`. -/
def reasoning (action : String) : String :=
  if action = "ACCEPT" then "Evidence supports the claim."
  else if action = "CORRECT" then "Evidence contradicts the claim."
  else if action = "ABSTAIN" then "Insufficient evidence confidence."
  else "Mixed evidence signals; requires review."

/-- `AdaptiveDecisionPolicy.decide`. -/
def decide (claim : Claim) (verification : VerificationResult)
    (evidence : List Evidence) : Decision :=
  let action := rule_based_action verification
  { claim_id := claim.id
    action := action
    original_claim := claim.text
    corrected_claim := none
    evidence_urls := evidence.map (·.source_url)
    confidence := verification.evidence_agreement
    reasoning := reasoning action }

end AdaptiveDecisionPolicy

/-! ### Model router escalation check (`hallushield/model_router.py`) -/

namespace ModelRouter

/-- The fixed hedging-phrase set of `ModelRouter.should_escalate`
(all already lowercase; apostrophes built explicitly). -/
def uncertainty_phrases : List Str :=
  [ strN "i don" ++ apos ++ strN "t know"
  , strN "i" ++ apos ++ strN "m not sure"
  , strN "i cannot"
  , strN "i don" ++ apos ++ strN "t have"
  , strN "unclear"
  , strN "uncertain"
  , strN "i cannot confirm" ]

/-- `ModelRouter.should_escalate`: given the SLM response text and the
hallucination/confidence scores computed by the pipeline, decide whether to
escalate.  Numeric interpolation inside reasons is elided (the reason
strings are never branched on). -/
def should_escalate (text : Str) (hallucination_score confidence : ℚ) :
    Bool × String :=
  let t := lowerStr text
  if uncertainty_phrases.any (fun p => containsSub p t) then
    (true, "SLM expressed uncertainty")
  else if hallucination_score > 0.3 then
    (true, "High hallucination rate")
  else if confidence < 0.5 then
    (true, "Low verification confidence")
  else if wordCount t < 10 then
    (true, "Response too brief, may lack detail")
  else
    (false, "No escalation needed")

end ModelRouter

namespace Pipeline

/-- `HalluShieldPipeline._check_escalation`: the tier comes from
`llm_metadata.get("tier", "slm")`, the verification results are the values
of the per-claim verification map, `raw` is `raw_llm_response`. -/
def check_escalation (tier : String) (verifications : List VerificationResult)
    (raw : Str) : Bool × String :=
  if tier = "llm" then (false, "Already using LLM tier")
  else
    let total := verifications.length
    let hallucination_score : ℚ :=
      if total = 0 then 0
      else
        (verifications.countP
          (fun v => decide (v.contradiction_score > 0.5 ∨ v.neutral_score > 0.7)) : ℚ)
          / (total : ℚ)
    let confidence : ℚ :=
      if total = 0 then 1
      else ((verifications.map (·.support_score)).sum) / (total : ℚ)
    ModelRouter.should_escalate raw hallucination_score confidence

end Pipeline

/-- Reference escalation decision at the `slm` tier, written from the
spec's words: (a) hedging phrase as case-insensitive substring of the raw
text; (b) (claims with contradiction > 0.5 or neutral > 0.7) / total > 0.3
(score 0 if none); (c) mean support (1.0 if none) < 0.5; (d) fewer than 10
words in the raw text; else no escalation. First true wins. -/
def refEscalation (raw : Str) (verifications : List VerificationResult) : Bool :=
  if ModelRouter.uncertainty_phrases.any
      (fun p => containsSub (lowerStr p) (lowerStr raw)) then true
  else
    let hallucination_score : ℚ :=
      if verifications = [] then 0
      else
        (verifications.countP
          (fun v => decide (v.contradiction_score > 0.5 ∨ v.neutral_score > 0.7)) : ℚ)
          / (verifications.length : ℚ)
    if hallucination_score > 0.3 then true
    else
      let confidence : ℚ :=
        if verifications = [] then 1
        else ((verifications.map (·.support_score)).sum) / (verifications.length : ℚ)
      if confidence < 0.5 then true
      else if wordCount raw < 10 then true
      else false

/-! ### Escalation cap: the regenerate loop (C2)

The orchestration graph loops `check_escalation → call_llm` when
`should_escalate` is true, with `force_llm_tier` set; `_call_llm` then calls
the router at the `llm` tier, whose responses carry `tier = "llm"` in the
generation metadata.  The loop is modelled by `runFrom`: `oracle` supplies,
for each generation call, the externally produced raw text and per-claim
verification outcomes of that cycle; `force` is the `force_llm_tier` flag
and `gens` counts executions of the `call_llm` node. -/

namespace Pipeline

/-- One graph cycle per fuel unit: generate (tier `llm` iff forced —
`ModelRouter.get_response` with `model_tier="llm"` always returns a
response whose `tier` field is `"llm"`, and `"slm"` otherwise), then
check escalation; recurse with `force_llm_tier := true` when it fires. -/
def runFrom (oracle : Nat → Str × List VerificationResult) :
    Nat → Bool → Nat → Nat
  | 0, _, gens => gens
  | fuel + 1, force, gens =>
    let out := oracle gens
    let tier : String := if force then "llm" else "slm"
    if (check_escalation tier out.2 out.1).1 then
      runFrom oracle fuel true (gens + 1)
    else
      gens + 1

/-- Number of `call_llm` executions of a pipeline run, for any fuel bound
on the number of graph cycles. -/
def pipelineGenCount (oracle : Nat → Str × List VerificationResult)
    (fuel : Nat) : Nat :=
  runFrom oracle fuel false 0

end Pipeline

/-! ### Verification scorer (`hallushield/verifier.py`) -/

/-- Alphanumeric code points, the character class of `[A-Za-z0-9]+`. -/
def isAlnumN (n : Nat) : Bool :=
  (48 ≤ n ∧ n ≤ 57) ∨ (65 ≤ n ∧ n ≤ 90) ∨ (97 ≤ n ∧ n ≤ 122)

/-- Accumulator-based extraction of maximal runs satisfying `p`
(`cur` holds the current run reversed). -/
def runsOfAux (p : Nat → Bool) : Str → Str → List Str
  | [], cur => if cur.isEmpty then [] else [cur.reverse]
  | c :: rest, cur =>
    if p c then runsOfAux p rest (c :: cur)
    else if cur.isEmpty then runsOfAux p rest []
    else cur.reverse :: runsOfAux p rest []

/-- `re.findall` over a single-character-class-plus pattern: the list of
maximal runs of characters satisfying `p`. -/
def runsOf (p : Nat → Bool) (s : Str) : List Str := runsOfAux p s []

/-- Python `max(scores) if scores else 0.0`. -/
def pyMax : List ℚ → ℚ
  | [] => 0
  | s :: rest => rest.foldl qmax s

namespace NLIVerifier

/-- The claim tokens of `_heuristic_support`:
`[t.lower() for t in re.findall(r"[A-Za-z0-9]+", claim) if len(t) >= 4]`. -/
def claimTokens (claim : Str) : List Str :=
  ((runsOf isAlnumN claim).filter (fun t => decide (4 ≤ t.length))).map lowerStr

/-- `NLIVerifier._heuristic_support`. -/
def heuristic_support (claim : Str) (evidence_list : List Evidence) : ℚ :=
  let tokens := claimTokens claim
  if tokens.isEmpty then 0.3
  else
    let scores := evidence_list.map (fun e =>
      ((tokens.countP (fun t => containsSub t (lowerStr e.snippet)) : ℚ))
        / ((pyMaxNat 1 tokens.length : ℕ) : ℚ))
    qmax 0 (qmin 1 (0.2 + 0.8 * pyMax scores))

/-- The four scores of a delegated-scorer verdict after the
`llm_result.get(..., default)` lookups of `NLIVerifier.verify`. -/
structure ScorerVerdict where
  support_score : ℚ := 0
  contradiction_score : ℚ := 0
  neutral_score : ℚ := 1
  confidence : ℚ := 0
  deriving DecidableEq, Repr

/-- `NLIVerifier.verify`: `scorer` is the outcome of
`_verify_with_llm` (`none` when the delegated scorer is unconfigured or
its output fails to parse). -/
def verify (scorer : Option ScorerVerdict) (claim_id : String) (claim : Str)
    (evidence_list : List Evidence) : VerificationResult :=
  if evidence_list.isEmpty then
    { claim_id := claim_id
      support_score := 0
      contradiction_score := 0
      neutral_score := 1
      evidence_agreement := 0
      source_count := 0
      evidence_ids := [] }
  else
    match scorer with
    | some r =>
      { claim_id := claim_id
        support_score := r.support_score
        contradiction_score := r.contradiction_score
        neutral_score := r.neutral_score
        evidence_agreement := r.confidence
        source_count := evidence_list.length
        evidence_ids := evidence_list.map (·.source_url) }
    | none =>
      let support := heuristic_support claim evidence_list
      { claim_id := claim_id
        support_score := support
        contradiction_score := 0
        neutral_score := qmax 0 (1 - support - 0)
        evidence_agreement := support
        source_count := evidence_list.length
        evidence_ids := evidence_list.map (·.source_url) }

end NLIVerifier

/-- Modelled from the spec claim C5's formula: support =
clamp(0.2 + 0.8 × the maximum over evidence items of the fraction of
length-≥4 claim tokens found as lowercase substrings in the item's
snippet).  A fraction with zero tokens is `0/0 = 0` in `ℚ`. -/
def heuristicSpecSupport (claim : Str) (evidence_list : List Evidence) : ℚ :=
  let tokens := NLIVerifier.claimTokens claim
  let fracs := evidence_list.map (fun e =>
    ((tokens.countP (fun t => containsSub t (lowerStr e.snippet)) : ℚ))
      / ((tokens.length : ℕ) : ℚ))
  qmax 0 (qmin 1 (0.2 + 0.8 * pyMax fracs))

/-! ### Evidence retrieval (`hallushield/evidence_retriever.py`)

Each provider call is modelled by an environment: the configured
credentials, availability of the HTTP client, and the transport outcome of
the call itself. -/

/-- Outcome of an external HTTP call: parsed payload or `httpx.HTTPError`. -/
inductive CallOutcome (α : Type)
  | ok (data : α)
  | httpError
  deriving DecidableEq, Repr

namespace EvidenceRetriever

/-- One entry of `data["web"]["results"]` from the web-search provider. -/
structure WebItem where
  url : Str
  description : Str
  age : Option Str := none
  deriving DecidableEq, Repr

/-- Environment of `_search_web`. -/
structure WebEnv where
  brave_api_key : Option String
  httpx_available : Bool
  call : CallOutcome (List WebItem)

/-- One entry of `data["query"]["search"]` from the reference provider
(`title` may be absent). -/
structure WikiItem where
  title : Option Str
  snippet : Option Str
  deriving DecidableEq, Repr

/-- Environment of `_search_wikipedia`. -/
structure WikiEnv where
  httpx_available : Bool
  call : CallOutcome (List WikiItem)

/-- The placeholder result set of `_search_web`, parametrised by the
initial relevance score and credibility of the degradation branch. -/
def placeholders (claim : Str) (top_k : Nat) (rel0 cred : ℚ) : List Evidence :=
  (List.range top_k).map (fun (i : ℕ) =>
    { source_url := strN "https://example.com/evidence/" ++ strN (toString i)
      snippet := strN "Placeholder evidence for: " ++ claim
      relevance_score := rel0 - (i : ℚ) * 0.1
      publish_date := none
      credibility_score := cred })

/-- `EvidenceRetriever._search_web`. -/
def search_web (env : WebEnv) (claim : Str) (top_k : Nat) : List Evidence :=
  match env.brave_api_key with
  | none => placeholders claim top_k 0.8 0.6
  | some _ =>
    if env.httpx_available = false then
      placeholders claim top_k 0.7 0.5
    else
      match env.call with
      | .httpError => placeholders claim top_k 0.7 0.5
      | .ok data =>
        (data.take top_k).filterMap (fun item =>
          let snippet := stripStr item.description
          if item.url.isEmpty || snippet.isEmpty then none
          else some
            { source_url := item.url
              snippet := snippet
              relevance_score := 0.75
              publish_date := item.age
              credibility_score := 0.7 })

/-- The HTML span markers stripped from reference-provider snippets. -/
def spanOpen : Str := strN "<span class=\"searchmatch\">"

/-- Closing span marker. -/
def spanClose : Str := strN "</span>"

/-- `EvidenceRetriever._search_wikipedia` (the claim text only feeds the
external query parameters). -/
def search_wikipedia (env : WikiEnv) (_claim : Str) (top_k : Nat) :
    List Evidence :=
  if top_k = 0 then []
  else if env.httpx_available = false then []
  else
    match env.call with
    | .httpError => []
    | .ok data =>
      (data.take top_k).filterMap (fun item =>
        let snippet :=
          pyReplace (pyReplace (item.snippet.getD []) spanOpen []) spanClose []
        match item.title with
        | none => none
        | some t =>
          if t.isEmpty || snippet.isEmpty then none
          else some
            { source_url := strN "https://en.wikipedia.org/wiki/"
                ++ pyReplace t (strN " ") (strN "_")
              snippet := snippet
              relevance_score := 0.65
              publish_date := none
              credibility_score := 0.8 })

end EvidenceRetriever

/-! ### Result cache (`hallushield/memory_store.py`), in-memory layer

No durable backend is configured in the modelled runs, so `check_claim`
and `store_verification` act on the in-memory dictionary keyed by claim
text. -/

namespace MemoryStore

/-- The payload stored per claim text by `store_verification`. -/
structure CachedRecord where
  action : String
  corrected_claim : Option Str
  evidence_urls : List Str
  confidence : ℚ
  deriving DecidableEq, Repr

/-- The in-memory dictionary `_in_memory` (newest binding first). -/
abbrev Mem := List (Str × CachedRecord)

/-- Dictionary lookup by claim text (`MemoryStore.check_claim`). -/
def check_claim : Mem → Str → Option CachedRecord
  | [], _ => none
  | (k, r) :: rest, t => if k = t then some r else check_claim rest t

/-- Dictionary upsert (`MemoryStore.store_verification`): the new binding
shadows any previous binding of the same claim text. -/
def store_verification (mem : Mem) (claim_text : Str) (action : String)
    (corrected_claim : Option Str) (evidence_urls : List Str)
    (confidence : ℚ) : Mem :=
  (claim_text, ⟨action, corrected_claim, evidence_urls, confidence⟩) :: mem

end MemoryStore

/-! ### Pipeline stages (`hallushield/pipeline.py`) -/

namespace Pipeline

/-- The external world of one pipeline run: the evidence retriever outcome
and the delegated scorer outcome per claim text. -/
structure RunEnv where
  retrieve : Str → List Evidence
  scorer : Str → List Evidence → Option NLIVerifier.ScorerVerdict

/-- Lookup in the per-claim-id association lists used for
`cached_claims`, `evidence_map` and `verification_results`. -/
def idLookup {α : Type} : List (String × α) → String → Option α
  | [], _ => none
  | (k, v) :: rest, cid => if k = cid then some v else idLookup rest cid

/-- `HalluShieldPipeline._check_memory`: consult the cache for every
claim. -/
def check_memory (mem : MemoryStore.Mem) (claims : List Claim) :
    List (String × MemoryStore.CachedRecord) :=
  claims.filterMap (fun c =>
    (MemoryStore.check_claim mem c.text).map (fun r => (c.id, r)))

/-- `HalluShieldPipeline._retrieve_evidence`: retrieve evidence for every
uncached claim, counting retriever invocations. -/
def retrieve_evidence (env : RunEnv) (claims : List Claim)
    (cached : List (String × MemoryStore.CachedRecord)) :
    List (String × List Evidence) × Nat :=
  claims.foldr (fun c acc =>
    if (idLookup cached c.id).isSome then acc
    else ((c.id, env.retrieve c.text) :: acc.1, acc.2 + 1)) ([], 0)

/-- `HalluShieldPipeline._verify_claims`: score every claim that has a
nonempty evidence entry, counting verifier invocations. -/
def verify_claims (env : RunEnv) (claims : List Claim)
    (evidence_map : List (String × List Evidence)) :
    List (String × VerificationResult) × Nat :=
  claims.foldr (fun c acc =>
    match idLookup evidence_map c.id with
    | none => acc
    | some ev =>
      if ev.isEmpty then acc
      else ((c.id, NLIVerifier.verify (env.scorer c.text ev) c.id c.text ev)
              :: acc.1, acc.2 + 1)) ([], 0)

/-- `HalluShieldPipeline._apply_policy`. -/
def apply_policy (claims : List Claim)
    (cached : List (String × MemoryStore.CachedRecord))
    (verification_results : List (String × VerificationResult))
    (evidence_map : List (String × List Evidence)) : List Decision :=
  claims.map (fun c =>
    match idLookup cached c.id with
    | some r =>
      { claim_id := c.id
        action := r.action
        original_claim := c.text
        corrected_claim := r.corrected_claim
        evidence_urls := r.evidence_urls
        confidence := r.confidence
        reasoning := "From cache" }
    | none =>
      let evidence := (idLookup evidence_map c.id).getD []
      let verification :=
        match idLookup verification_results c.id with
        | some v => v
        | none =>
          { claim_id := c.id
            support_score := 0
            contradiction_score := 0
            neutral_score := 1
            evidence_agreement := 0
            source_count := (evidence.length : ℤ)
            evidence_ids := evidence.map (·.source_url) }
      AdaptiveDecisionPolicy.decide c verification evidence)

/-- `HalluShieldPipeline._update_memory`: persist every non-cache-sourced
decision keyed by its original claim text. -/
def update_memory (mem : MemoryStore.Mem)
    (cached : List (String × MemoryStore.CachedRecord))
    (decisions : List Decision) : MemoryStore.Mem :=
  decisions.foldl (fun m d =>
    if (idLookup cached d.claim_id).isSome then m
    else MemoryStore.store_verification m d.original_claim d.action
      d.corrected_claim d.evidence_urls d.confidence) mem

/-- Observable outcome of one pipeline run over already-extracted claims. -/
structure RunResult where
  decisions : List Decision
  mem : MemoryStore.Mem
  retrieval_calls : Nat
  scoring_calls : Nat

/-- One pipeline run (the per-claim stages of `verify`): cache check,
evidence retrieval for uncached claims, scoring, policy, cache update. -/
def run (env : RunEnv) (mem : MemoryStore.Mem) (claims : List Claim) :
    RunResult :=
  let cached := check_memory mem claims
  let emap := retrieve_evidence env claims cached
  let vmap := verify_claims env claims emap.1
  let ds := apply_policy claims cached vmap.1 emap.1
  { decisions := ds
    mem := update_memory mem cached ds
    retrieval_calls := emap.2
    scoring_calls := vmap.2 }

/-- One audit entry of `_assemble_answer`'s `modifications` list. -/
inductive Modification
  | correction (original corrected : Str) (evidence : List Str)
  | uncertainty (claim : Str)
  | flagged (claim : Str) (reasoning : String)
  deriving DecidableEq, Repr

/-- Python truthiness of `decision.corrected_claim`
(`None` and the empty string are falsy). -/
def optTruthy : Option Str → Bool
  | none => false
  | some s => !s.isEmpty

/-- The per-decision body of `_assemble_answer`'s loop, acting on the
current answer text and accumulated modifications. -/
def assembleStep (acc : Str × List Modification) (d : Decision) :
    Str × List Modification :=
  if d.action = "CORRECT" ∧ optTruthy d.corrected_claim then
    (pyReplace acc.1 d.original_claim
        ((d.corrected_claim.getD []) ++ strN " [CORRECTED]"),
     acc.2 ++ [Modification.correction d.original_claim
        (d.corrected_claim.getD []) (d.evidence_urls.take 3)])
  else if d.action = "ABSTAIN" then
    (acc.1, acc.2 ++ [Modification.uncertainty d.original_claim])
  else if d.action = "FLAG_FOR_HUMAN" then
    (acc.1, acc.2 ++ [Modification.flagged d.original_claim d.reasoning])
  else acc

/-- The `final_answer` record built by `_assemble_answer`. -/
structure FinalAnswer where
  verified_answer : Str
  original_answer : Str
  modifications : List Modification
  hallucination_score : ℚ
  confidence : ℚ
  total_claims : Nat
  verified : Nat
  corrected : Nat
  abstained : Nat
  flagged : Nat
  deriving Repr

/-- `HalluShieldPipeline._assemble_answer`. -/
def assemble_answer (raw : Str) (decisions : List Decision) : FinalAnswer :=
  let p := decisions.foldl assembleStep (raw, [])
  let total_claims := decisions.length
  let problematic := decisions.countP
    (fun d => decide (d.action = "CORRECT" ∨ d.action = "FLAG_FOR_HUMAN"))
  let hallucination_score : ℚ :=
    if total_claims = 0 then 0 else (problematic : ℚ) / (total_claims : ℚ)
  { verified_answer := p.1
    original_answer := raw
    modifications := p.2
    hallucination_score := hallucination_score
    confidence := 1 - hallucination_score
    total_claims := total_claims
    verified := decisions.countP (fun d => decide (d.action = "ACCEPT"))
    corrected := decisions.countP (fun d => decide (d.action = "CORRECT"))
    abstained := decisions.countP (fun d => decide (d.action = "ABSTAIN"))
    flagged := decisions.countP (fun d => decide (d.action = "FLAG_FOR_HUMAN")) }

end Pipeline

/-- A concrete external world: evidence retrieval finds nothing, the
delegated scorer is unconfigured. -/
def env0 : Pipeline.RunEnv :=
  { retrieve := fun _ => [], scorer := fun _ _ => none }

/-- A concrete claim used by the concrete-run theorems. -/
def c0 : Claim :=
  { id := "c0"
    text := strN "Tokyo had 37 million residents in 2024"
    claim_type := "numerical"
    source_sentence := strN "Tokyo had 37 million residents in 2024."
    position := 0 }

/-- The decision of the first concrete run on `c0`. -/
def d1c : Decision :=
  { claim_id := "c0"
    action := "ABSTAIN"
    original_claim := strN "Tokyo had 37 million residents in 2024"
    corrected_claim := none
    evidence_urls := []
    confidence := 0
    reasoning := "Insufficient evidence confidence." }

/-- A concrete verification result for the C10 witness. -/
def vr0 : VerificationResult :=
  { claim_id := "c0"
    support_score := 0
    contradiction_score := 0
    neutral_score := 1
    evidence_agreement := 0
    source_count := 0
    evidence_ids := [] }

/-! ### Verdict parsing (`NLIVerifier._parse_json`)

`json.loads` is an external library call; `Json.loads` models it on the
JSON fragment the scorer emits (objects, arrays, strings without escapes,
integers, booleans, null), including the library's whole-input requirement
(trailing non-whitespace is a parse error, leading junk is a parse
error). -/

namespace Json

/-- A parsed JSON value. -/
inductive JsonVal
  | obj (fields : List (Str × JsonVal))
  | arr (items : List JsonVal)
  | str (s : Str)
  | num (n : ℤ)
  | boolean (b : Bool)
  | null

/-- Skip JSON whitespace (space, tab, LF, CR). -/
def skipWs : Str → Str
  | [] => []
  | c :: rest =>
    if c = 32 ∨ c = 9 ∨ c = 10 ∨ c = 13 then skipWs rest else c :: rest

/-- Parse the remainder of a string literal (opening quote consumed;
escape sequences are outside the modelled fragment). -/
def parseStringAux : Nat → Str → Option (Str × Str)
  | 0, _ => none
  | _ + 1, [] => none
  | n + 1, c :: rest =>
    if c = 34 then some ([], rest)
    else (parseStringAux n rest).map (fun p => (c :: p.1, p.2))

/-- Consume a run of decimal digits into an accumulator. -/
def parseNatAux : Str → Nat → Nat × Str
  | [], acc => (acc, [])
  | c :: rest, acc =>
    if 48 ≤ c ∧ c ≤ 57 then parseNatAux rest (acc * 10 + (c - 48))
    else (acc, c :: rest)

/-- Parse a nonempty digit run. -/
def parseNat (s : Str) : Option (Nat × Str) :=
  match s with
  | [] => none
  | c :: _ => if 48 ≤ c ∧ c ≤ 57 then some (parseNatAux s 0) else none

mutual

/-- Parse one JSON value, fuel-bounded. -/
def parseValue : Nat → Str → Option (JsonVal × Str)
  | 0, _ => none
  | fuel + 1, s =>
    match skipWs s with
    | [] => none
    | c :: rest =>
      if c = 123 then parseObjBody fuel rest
      else if c = 91 then parseArrBody fuel rest
      else if c = 34 then
        match parseStringAux rest.length rest with
        | none => none
        | some (lit, rem) => some (.str lit, rem)
      else if c = 116 ∧ rest.take 3 = strN "rue" then
        some (.boolean true, rest.drop 3)
      else if c = 102 ∧ rest.take 4 = strN "alse" then
        some (.boolean false, rest.drop 4)
      else if c = 110 ∧ rest.take 3 = strN "ull" then
        some (.null, rest.drop 3)
      else if c = 45 then
        match parseNat rest with
        | none => none
        | some (m, rem) => some (.num (-(m : ℤ)), rem)
      else if 48 ≤ c ∧ c ≤ 57 then
        match parseNat (c :: rest) with
        | none => none
        | some (m, rem) => some (.num (m : ℤ), rem)
      else none

/-- Parse an object body after its opening brace. -/
def parseObjBody : Nat → Str → Option (JsonVal × Str)
  | 0, _ => none
  | fuel + 1, s =>
    match skipWs s with
    | 125 :: rest => some (.obj [], rest)
    | _ => parseFields fuel s []

/-- Parse `"key": value` fields separated by commas up to the closing
brace. -/
def parseFields : Nat → Str → List (Str × JsonVal) →
    Option (JsonVal × Str)
  | 0, _, _ => none
  | fuel + 1, s, acc =>
    match skipWs s with
    | [] => none
    | c :: rest =>
      if c = 34 then
        match parseStringAux rest.length rest with
        | none => none
        | some (key, rem) =>
          match skipWs rem with
          | 58 :: rem2 =>
            match parseValue fuel rem2 with
            | none => none
            | some (v, rem3) =>
              match skipWs rem3 with
              | 44 :: rem4 => parseFields fuel rem4 (acc ++ [(key, v)])
              | 125 :: rem4 => some (.obj (acc ++ [(key, v)]), rem4)
              | _ => none
          | _ => none
      else none

/-- Parse an array body after its opening bracket. -/
def parseArrBody : Nat → Str → Option (JsonVal × Str)
  | 0, _ => none
  | fuel + 1, s =>
    match skipWs s with
    | 93 :: rest => some (.arr [], rest)
    | _ => parseItems fuel s []

/-- Parse comma-separated array items up to the closing bracket. -/
def parseItems : Nat → Str → List JsonVal → Option (JsonVal × Str)
  | 0, _, _ => none
  | fuel + 1, s, acc =>
    match parseValue fuel s with
    | none => none
    | some (v, rem) =>
      match skipWs rem with
      | 44 :: rem2 => parseItems fuel rem2 (acc ++ [v])
      | 93 :: rem2 => some (.arr (acc ++ [v]), rem2)
      | _ => none

end

/-- Model of `json.loads`: parse one value and require only whitespace to
remain; any leading junk or trailing data is a parse failure. -/
def loads (s : Str) : Option JsonVal :=
  match parseValue (s.length + 1) s with
  | none => none
  | some (v, rem) => if skipWs rem = [] then some v else none

end Json

namespace NLIVerifier

/-- The substring matched by `re.search(r"\{.*\}", text, re.DOTALL)`:
from the first `{` that precedes the last `}` in the text, to that last
`}`, inclusive (greedy `.*`). -/
def regexSpan (text : Str) : Option Str :=
  match ((List.range text.length).filter
      (fun k => decide (text.getD k 0 = 125))).getLast? with
  | none => none
  | some j =>
    match ((List.range text.length).filter
        (fun k => decide (text.getD k 0 = 123 ∧ k < j))).head? with
    | none => none
    | some i => some ((text.drop i).take (j + 1 - i))

/-- `NLIVerifier._parse_json`: direct parse, else parse the regex-matched
brace span. -/
def parse_json (text : Str) : Option Json.JsonVal :=
  match Json.loads text with
  | some v => some v
  | none =>
    match regexSpan text with
    | none => none
    | some sub => Json.loads sub

end NLIVerifier

/-- Scan for the end of the balanced-brace region opened before `rest`
at nesting depth `depth`, accumulating the region seen so far. -/
def balancedSpanAux : Str → Nat → Str → Option Str
  | [], _, _ => none
  | c :: rest, depth, acc =>
    if c = 123 then balancedSpanAux rest (depth + 1) (acc ++ [123])
    else if c = 125 then
      if depth = 1 then some (acc ++ [125])
      else balancedSpanAux rest (depth - 1) (acc ++ [125])
    else balancedSpanAux rest depth (acc ++ [c])

/-- The first balanced-brace substring of a text: from the first `{` to
the matching `}`. -/
def firstBalancedBrace : Str → Option Str
  | [] => none
  | c :: rest =>
    if c = 123 then balancedSpanAux rest 1 [123]
    else firstBalancedBrace rest

/-- Modelled from the spec: the permissive verdict parser as claimed —
direct parse, else extract and parse the first balanced-brace
substring. -/
def parse_json_spec (text : Str) : Option Json.JsonVal :=
  match Json.loads text with
  | some v => some v
  | none =>
    match firstBalancedBrace text with
    | none => none
    | some sub => Json.loads sub

/-- The C8 counterexample input `x {"a": 1} y }` (braces and quotes built
from code points). -/
def cex8 : Str :=
  strN "x " ++ [123] ++ [34, 97, 34, 58, 32, 49] ++ [125]
    ++ strN " y " ++ [125]

/-! ### Theorems -/

/-- C1: `decide` always returns one of the four actions, selected
first-match-wins over the three score rules. -/
theorem policy_decide_total_first_match
    (c : Claim) (v : VerificationResult) (ev : List Evidence) :
    let a := (AdaptiveDecisionPolicy.decide c v ev).action
    (a = "ACCEPT" ∨ a = "CORRECT" ∨ a = "ABSTAIN" ∨ a = "FLAG_FOR_HUMAN")
    ∧ (a = "ACCEPT" ↔ v.support_score > 0.85 ∧ v.contradiction_score < 0.1)
    ∧ (a = "CORRECT" ↔
        ¬(v.support_score > 0.85 ∧ v.contradiction_score < 0.1)
        ∧ v.contradiction_score > 0.7)
    ∧ (a = "ABSTAIN" ↔
        ¬(v.support_score > 0.85 ∧ v.contradiction_score < 0.1)
        ∧ ¬(v.contradiction_score > 0.7)
        ∧ (v.source_count < 2 ∨ v.evidence_agreement < 0.5))
    ∧ (a = "FLAG_FOR_HUMAN" ↔
        ¬(v.support_score > 0.85 ∧ v.contradiction_score < 0.1)
        ∧ ¬(v.contradiction_score > 0.7)
        ∧ ¬(v.source_count < 2 ∨ v.evidence_agreement < 0.5)) := by
  unfold AdaptiveDecisionPolicy.decide AdaptiveDecisionPolicy.rule_based_action
  split_ifs with h1 h2 h3 <;> simp_all

/-- Lowercasing preserves whitespace-ness of a character. -/
lemma isWsN_lowerNat (n : Nat) : isWsN (lowerNat n) = isWsN n := by
  unfold lowerNat isWsN
  split_ifs with h
  · simp only [decide_eq_decide]
    omega
  · rfl

/-- Lowercasing a string does not change its word count (auxiliary form). -/
lemma wordCountAux_lowerStr (b : Bool) (s : Str) :
    wordCountAux b (lowerStr s) = wordCountAux b s := by
  induction s generalizing b with
  | nil => rfl
  | cons c rest ih =>
    simp only [lowerStr, List.map_cons, wordCountAux, isWsN_lowerNat]
    by_cases h : isWsN c = true
    · simp only [h, if_true]
      exact ih false
    · simp only [h, if_false, Bool.false_eq_true]
      exact congrArg _ (ih true)

/-- Lowercasing a string does not change its word count. -/
lemma wordCount_lowerStr (s : Str) : wordCount (lowerStr s) = wordCount s :=
  wordCountAux_lowerStr false s

/-- C3: at the `slm` tier the pipeline's escalation decision coincides with
the reference definition written from the spec (hedging phrases, then
hallucination rate > 0.3, then mean support < 0.5, then fewer than 10
words, else no escalation). -/
theorem slm_escalation_matches_reference
    (raw : Str) (verifications : List VerificationResult) :
    (Pipeline.check_escalation "slm" verifications raw).1 =
      refEscalation raw verifications := by
  have hphr : ModelRouter.uncertainty_phrases.map lowerStr =
      ModelRouter.uncertainty_phrases := by decide
  have hany : (ModelRouter.uncertainty_phrases.any
        (fun p => containsSub (lowerStr p) (lowerStr raw))) =
      (ModelRouter.uncertainty_phrases.any
        (fun p => containsSub p (lowerStr raw))) := by
    rw [show (fun p => containsSub (lowerStr p) (lowerStr raw)) =
        (fun p => containsSub p (lowerStr raw)) ∘ lowerStr from rfl]
    rw [← List.any_map, hphr]
  simp only [Pipeline.check_escalation, ModelRouter.should_escalate,
    refEscalation, hany, wordCount_lowerStr,
    if_neg (by decide : ¬("slm" : String) = "llm")]
  by_cases hhedge : (ModelRouter.uncertainty_phrases.any
      (fun p => containsSub p (lowerStr raw))) = true
  · simp [hhedge]
  · simp only [hhedge, Bool.false_eq_true, if_false]
    by_cases hnil : verifications = []
    · subst hnil
      have h1 : ¬((0.3 : ℚ) < 0) := by norm_num
      have h2 : ¬((1 : ℚ) < 0.5) := by norm_num
      by_cases hw : wordCount raw < 10 <;> simp [h1, h2, hw]
    · have hl : verifications.length ≠ 0 := fun h => hnil (List.length_eq_zero.mp h)
      simp only [if_neg hnil, if_neg hl]
      split_ifs <;> rfl

/-- Once forced to the `llm` tier, every further cycle refuses to escalate,
so the run ends after at most one more generation. -/
lemma runFrom_forced_le (oracle : Nat → Str × List VerificationResult)
    (fuel gens : Nat) :
    Pipeline.runFrom oracle fuel true gens ≤ gens + 1 := by
  cases fuel with
  | zero => simp [Pipeline.runFrom]
  | succ n =>
    simp only [Pipeline.runFrom, if_true]
    have : (Pipeline.check_escalation "llm" (oracle gens).2 (oracle gens).1).1 =
        false := rfl
    simp [this]

/-- C2: the escalation check at the `llm` tier is always false, whatever
the verification scores and raw text; consequently every pipeline run
executes the generation node at most twice, i.e. the regenerate loop fires
at most once. -/
theorem escalation_at_most_once :
    (∀ (verifications : List VerificationResult) (raw : Str),
      (Pipeline.check_escalation "llm" verifications raw).1 = false)
    ∧ (∀ (oracle : Nat → Str × List VerificationResult) (fuel : Nat),
      Pipeline.pipelineGenCount oracle fuel ≤ 2) := by
  constructor
  · intro verifications raw
    rfl
  · intro oracle fuel
    unfold Pipeline.pipelineGenCount
    cases fuel with
    | zero => simp [Pipeline.runFrom]
    | succ n =>
      have hstep : Pipeline.runFrom oracle (n + 1) false 0 =
          if (Pipeline.check_escalation "slm" (oracle 0).2 (oracle 0).1).1 then
            Pipeline.runFrom oracle n true 1
          else 1 := rfl
      rw [hstep]
      split
      · exact runFrom_forced_le oracle n 1
      · omega

/-- `qmax` dominates its left argument. -/
lemma le_qmax_left (a b : ℚ) : a ≤ qmax a b := by
  unfold qmax
  split_ifs with h
  · exact h
  · exact le_refl a

/-- Every element of a `foldl qmax` chain is below its result. -/
lemma le_foldl_qmax (l : List ℚ) (a : ℚ) : a ≤ l.foldl qmax a := by
  induction l generalizing a with
  | nil => exact le_refl a
  | cons x xs ih => exact le_trans (le_qmax_left a x) (ih (qmax a x))

/-- `pyMax` of a list of nonnegative rationals is nonnegative. -/
lemma pyMax_nonneg (l : List ℚ) (h : ∀ x ∈ l, 0 ≤ x) : 0 ≤ pyMax l := by
  cases l with
  | nil => exact le_refl 0
  | cons s rest =>
    exact le_trans (h s (List.mem_cons_self s rest)) (le_foldl_qmax rest s)

/-- C5 counterexample: for the claim text `"a b"` (no token of length ≥ 4)
with one evidence item, the code returns `0.3` while the claimed formula
yields `0.2`. -/
theorem heuristic_support_formula_cex :
    NLIVerifier.heuristic_support (strN "a b")
        [{ source_url := strN "u", snippet := strN "anything",
           relevance_score := 4/5, credibility_score := 3/5 }] = 3/10
    ∧ heuristicSpecSupport (strN "a b")
        [{ source_url := strN "u", snippet := strN "anything",
           relevance_score := 4/5, credibility_score := 3/5 }] = 1/5
    ∧ (3 : ℚ)/10 ≠ 1/5 := by
  have htok : NLIVerifier.claimTokens (strN "a b") = [] := by decide
  refine ⟨?_, ?_, by norm_num⟩
  · unfold NLIVerifier.heuristic_support
    rw [htok]
    norm_num
  · unfold heuristicSpecSupport
    rw [htok]
    simp only [List.countP_nil, List.map_cons, List.map_nil, List.length_nil]
    unfold pyMax qmax qmin
    norm_num

/-- The clamp `max 0 (min 1 (0.2 + 0.8 * base))` lies in `[0.2, 1]` for
nonnegative `base`. -/
lemma clamp_bounds (base : ℚ) (hb : 0 ≤ base) :
    (1 : ℚ)/5 ≤ qmax 0 (qmin 1 (0.2 + 0.8 * base))
    ∧ qmax 0 (qmin 1 (0.2 + 0.8 * base)) ≤ 1 := by
  unfold qmax qmin
  split_ifs <;> constructor <;> linarith

/-- C5 (amended): with evidence present and the delegated scorer absent or
failing, the heuristic verification result has
`support_score ∈ [0.2, 1.0]` and `contradiction_score = 0`; the claimed
clamp formula holds whenever the claim has at least one length-≥4 token,
and the tokenless case yields the fixed value `0.3`. -/
theorem heuristic_fallback_bound_amended
    (cid : String) (claim : Str) (evs : List Evidence) (hevs : evs ≠ []) :
    let r := NLIVerifier.verify none cid claim evs
    ((1 : ℚ)/5 ≤ r.support_score ∧ r.support_score ≤ 1
      ∧ r.contradiction_score = 0)
    ∧ (NLIVerifier.claimTokens claim ≠ [] →
        r.support_score = heuristicSpecSupport claim evs)
    ∧ (NLIVerifier.claimTokens claim = [] → r.support_score = 3/10) := by
  intro r
  have hne : evs.isEmpty = false := by
    cases evs with
    | nil => exact absurd rfl hevs
    | cons a l => rfl
  have hsup : r.support_score = NLIVerifier.heuristic_support claim evs := by
    show (NLIVerifier.verify none cid claim evs).support_score = _
    unfold NLIVerifier.verify
    rw [hne]
    rfl
  have hcon : r.contradiction_score = 0 := by
    show (NLIVerifier.verify none cid claim evs).contradiction_score = 0
    unfold NLIVerifier.verify
    rw [hne]
    rfl
  by_cases htok : NLIVerifier.claimTokens claim = []
  · have hie : (NLIVerifier.claimTokens claim).isEmpty = true := by
      rw [htok]; rfl
    have hval : NLIVerifier.heuristic_support claim evs = 3/10 := by
      unfold NLIVerifier.heuristic_support
      simp only [hie, if_true]
      norm_num
    refine ⟨⟨?_, ?_, hcon⟩, fun h => absurd htok h, fun _ => by rw [hsup, hval]⟩
    · rw [hsup, hval]; norm_num
    · rw [hsup, hval]; norm_num
  · have hie : (NLIVerifier.claimTokens claim).isEmpty = false := by
      cases h : NLIVerifier.claimTokens claim with
      | nil => exact absurd h htok
      | cons a l => rfl
    have hlen : 1 ≤ (NLIVerifier.claimTokens claim).length := by
      have := List.length_pos.mpr htok
      omega
    have hmax : pyMaxNat 1 (NLIVerifier.claimTokens claim).length =
        (NLIVerifier.claimTokens claim).length := by
      unfold pyMaxNat
      rw [if_pos hlen]
    have hform : NLIVerifier.heuristic_support claim evs =
        qmax 0 (qmin 1 (0.2 + 0.8 * pyMax (evs.map fun e =>
          (((NLIVerifier.claimTokens claim).countP
              (fun t => containsSub t (lowerStr e.snippet)) : ℚ))
            / ((pyMaxNat 1 (NLIVerifier.claimTokens claim).length : ℕ) : ℚ)))) := by
      unfold NLIVerifier.heuristic_support
      simp only [hie, Bool.false_eq_true, if_false]
    have hbase : 0 ≤ pyMax (evs.map fun e =>
        (((NLIVerifier.claimTokens claim).countP
            (fun t => containsSub t (lowerStr e.snippet)) : ℚ))
          / ((pyMaxNat 1 (NLIVerifier.claimTokens claim).length : ℕ) : ℚ)) := by
      refine pyMax_nonneg _ ?_
      intro x hx
      simp only [List.mem_map] at hx
      obtain ⟨e, _, rfl⟩ := hx
      exact div_nonneg (Nat.cast_nonneg _) (Nat.cast_nonneg _)
    have hval : NLIVerifier.heuristic_support claim evs =
        heuristicSpecSupport claim evs := by
      rw [hform]
      unfold heuristicSpecSupport
      rw [hmax]
    obtain ⟨hlo, hhi⟩ := clamp_bounds _ hbase
    refine ⟨⟨?_, ?_, hcon⟩, fun _ => by rw [hsup, hval], fun h => absurd h htok⟩
    · rw [hsup, hform]; exact hlo
    · rw [hsup, hform]; exact hhi

/-- Witness for the amended C5 theorem at a concrete claim and evidence
list. -/
theorem heuristic_fallback_bound_witness :
    ([{ source_url := strN "https://example.com", snippet := strN "paris is in france",
        relevance_score := 3/4, credibility_score := 7/10 }] : List Evidence) ≠ []
    ∧ (((1 : ℚ)/5 ≤ (NLIVerifier.verify none "c1"
          (strN "Paris is the capital of France")
          [{ source_url := strN "https://example.com", snippet := strN "paris is in france",
             relevance_score := 3/4, credibility_score := 7/10 }]).support_score
        ∧ (NLIVerifier.verify none "c1"
          (strN "Paris is the capital of France")
          [{ source_url := strN "https://example.com", snippet := strN "paris is in france",
             relevance_score := 3/4, credibility_score := 7/10 }]).support_score ≤ 1
        ∧ (NLIVerifier.verify none "c1"
          (strN "Paris is the capital of France")
          [{ source_url := strN "https://example.com", snippet := strN "paris is in france",
             relevance_score := 3/4, credibility_score := 7/10 }]).contradiction_score = 0)
      ∧ (NLIVerifier.claimTokens (strN "Paris is the capital of France") ≠ [] →
          (NLIVerifier.verify none "c1"
            (strN "Paris is the capital of France")
            [{ source_url := strN "https://example.com", snippet := strN "paris is in france",
               relevance_score := 3/4, credibility_score := 7/10 }]).support_score =
            heuristicSpecSupport (strN "Paris is the capital of France")
              [{ source_url := strN "https://example.com", snippet := strN "paris is in france",
                 relevance_score := 3/4, credibility_score := 7/10 }])
      ∧ (NLIVerifier.claimTokens (strN "Paris is the capital of France") = [] →
          (NLIVerifier.verify none "c1"
            (strN "Paris is the capital of France")
            [{ source_url := strN "https://example.com", snippet := strN "paris is in france",
               relevance_score := 3/4, credibility_score := 7/10 }]).support_score = 3/10)) :=
  ⟨List.cons_ne_nil _ _,
    heuristic_fallback_bound_amended "c1"
      (strN "Paris is the capital of France")
      [{ source_url := strN "https://example.com", snippet := strN "paris is in france",
         relevance_score := 3/4, credibility_score := 7/10 }] (List.cons_ne_nil _ _)⟩

/-- The relevance scores of a placeholder result set are the strictly
decreasing sequence `rel0 - 0.1·i`. -/
lemma placeholders_relevance (claim : Str) (top_k : Nat) (rel0 cred : ℚ) :
    (EvidenceRetriever.placeholders claim top_k rel0 cred).map (·.relevance_score) =
      (List.range top_k).map (fun (i : ℕ) => rel0 - (i : ℚ) * 0.1)
    ∧ ((EvidenceRetriever.placeholders claim top_k rel0 cred).map
        (·.relevance_score)).Pairwise (· > ·) := by
  have hmap : (EvidenceRetriever.placeholders claim top_k rel0 cred).map
      (·.relevance_score) =
      (List.range top_k).map (fun (i : ℕ) => rel0 - (i : ℚ) * 0.1) := by
    unfold EvidenceRetriever.placeholders
    rw [List.map_map]
    rfl
  refine ⟨hmap, ?_⟩
  rw [hmap]
  simp only [List.pairwise_map]
  refine (List.pairwise_lt_range top_k).imp ?_
  intro a b hab
  have hc : (a : ℚ) < (b : ℚ) := by exact_mod_cast hab
  show rel0 - (a : ℚ) * 0.1 > rel0 - (b : ℚ) * 0.1
  nlinarith

/-- C6 counterexample: on a transport failure the reference provider
returns the empty list — not a placeholder result set — so the claim as
stated is false for that provider. -/
theorem wikipedia_failure_empty_cex :
    EvidenceRetriever.search_wikipedia ⟨true, .httpError⟩
      (strN "Paris is the capital of France") 2 = [] := rfl

/-- C6 (amended): the web provider degrades to the deterministic
placeholder result set with strictly decreasing relevance scores on a
missing credential (relevance `0.8 - 0.1·i`) and on a missing HTTP client
or transport failure (relevance `0.7 - 0.1·i`), independently of the call
outcome; the reference provider degrades to the empty result list on a
missing HTTP client or transport failure.  Neither provider propagates a
transport error. -/
theorem providers_degrade_amended (claim : Str) (top_k : Nat) (hx : Bool)
    (c : CallOutcome (List EvidenceRetriever.WebItem))
    (cw : CallOutcome (List EvidenceRetriever.WikiItem)) (key : String) :
    (EvidenceRetriever.search_web ⟨none, hx, c⟩ claim top_k =
        EvidenceRetriever.placeholders claim top_k 0.8 0.6
      ∧ ((EvidenceRetriever.search_web ⟨none, hx, c⟩ claim top_k).map
          (·.relevance_score)).Pairwise (· > ·))
    ∧ (EvidenceRetriever.search_web ⟨some key, false, c⟩ claim top_k =
        EvidenceRetriever.placeholders claim top_k 0.7 0.5
      ∧ EvidenceRetriever.search_web ⟨some key, true, .httpError⟩ claim top_k =
        EvidenceRetriever.placeholders claim top_k 0.7 0.5
      ∧ ((EvidenceRetriever.search_web ⟨some key, false, c⟩ claim top_k).map
          (·.relevance_score)).Pairwise (· > ·))
    ∧ (EvidenceRetriever.search_wikipedia ⟨false, cw⟩ claim top_k = []
      ∧ EvidenceRetriever.search_wikipedia ⟨true, .httpError⟩ claim top_k = []) := by
  refine ⟨⟨rfl, ?_⟩, ⟨rfl, rfl, ?_⟩, ?_, ?_⟩
  · exact (placeholders_relevance claim top_k 0.8 0.6).2
  · exact (placeholders_relevance claim top_k 0.7 0.5).2
  · by_cases h : top_k = 0 <;> simp [EvidenceRetriever.search_wikipedia, h]
  · by_cases h : top_k = 0 <;> simp [EvidenceRetriever.search_wikipedia, h]

/-- Counting decisions that are CORRECT-or-FLAG splits into the two
separate counts (an action is never both). -/
lemma countP_problematic_split (ds : List Decision) :
    ds.countP (fun d => decide (d.action = "CORRECT" ∨ d.action = "FLAG_FOR_HUMAN")) =
      ds.countP (fun d => decide (d.action = "CORRECT"))
      + ds.countP (fun d => decide (d.action = "FLAG_FOR_HUMAN")) := by
  induction ds with
  | nil => rfl
  | cons d t ih =>
    simp only [List.countP_cons, ih]
    by_cases h1 : d.action = "CORRECT" <;> by_cases h2 : d.action = "FLAG_FOR_HUMAN"
    · rw [h1] at h2
      exact absurd h2 (by decide)
    all_goals simp [h1, h2] <;> omega

/-- The answer component of the assembly fold ignores the accumulated
modifications. -/
lemma assemble_fold_fst (ds : List Decision) (ans : Str)
    (mods : List Pipeline.Modification) :
    (ds.foldl Pipeline.assembleStep (ans, mods)).1 =
      ds.foldl (fun a d =>
        if d.action = "CORRECT" ∧ Pipeline.optTruthy d.corrected_claim then
          pyReplace a d.original_claim
            ((d.corrected_claim.getD []) ++ strN " [CORRECTED]")
        else a) ans := by
  induction ds generalizing ans mods with
  | nil => rfl
  | cons d t ih =>
    simp only [List.foldl_cons]
    unfold Pipeline.assembleStep
    split_ifs <;> exact ih _ _

/-- C4: answer assembly computes
`hallucination_score = (#CORRECT + #FLAG_FOR_HUMAN) / total` (0 with no
decisions), `confidence = 1 - hallucination_score`, and rewrites the
answer by folding, over the decisions in order, the replacement of the
original claim text with `"{corrected} [CORRECTED]"` for every CORRECT
decision carrying a (truthy) corrected claim. -/
theorem assemble_answer_spec (raw : Str) (decisions : List Decision) :
    (Pipeline.assemble_answer raw decisions).hallucination_score =
      (if decisions = [] then 0 else
        (((decisions.countP (fun d => decide (d.action = "CORRECT")) : Nat)
          + (decisions.countP (fun d => decide (d.action = "FLAG_FOR_HUMAN")) : Nat) : ℚ))
          / (decisions.length : ℚ))
    ∧ (Pipeline.assemble_answer raw decisions).confidence =
        1 - (Pipeline.assemble_answer raw decisions).hallucination_score
    ∧ (Pipeline.assemble_answer raw decisions).verified_answer =
        decisions.foldl (fun a d =>
          if d.action = "CORRECT" ∧ Pipeline.optTruthy d.corrected_claim then
            pyReplace a d.original_claim
              ((d.corrected_claim.getD []) ++ strN " [CORRECTED]")
          else a) raw := by
  refine ⟨?_, rfl, ?_⟩
  · show (if decisions.length = 0 then (0 : ℚ) else _) = _
    by_cases h : decisions = []
    · rw [h]
      rfl
    · have hl : decisions.length ≠ 0 := fun hc => h (List.length_eq_zero.mp hc)
      rw [if_neg hl, if_neg h, countP_problematic_split]
      push_cast
      ring
  · exact assemble_fold_fst decisions raw []

/-- The default verification result built by `_apply_policy` with empty
evidence is decided ABSTAIN (source count 0 < 2). -/
lemma default_action_abstain (cid : String) :
    AdaptiveDecisionPolicy.rule_based_action
      { claim_id := cid, support_score := 0, contradiction_score := 0,
        neutral_score := 1, evidence_agreement := 0, source_count := 0,
        evidence_ids := [] } = "ABSTAIN" := by
  unfold AdaptiveDecisionPolicy.rule_based_action
  rw [if_neg (by norm_num), if_neg (by norm_num),
    if_pos (Or.inl (by norm_num))]

/-- A single-claim run on a cache hit: the decision is rebuilt from the
cached record with reasoning "From cache", no retrieval or scoring happens,
and the cache is left unchanged. -/
lemma run_single_cached (env : Pipeline.RunEnv) (mem : MemoryStore.Mem)
    (c : Claim) (r : MemoryStore.CachedRecord)
    (h : MemoryStore.check_claim mem c.text = some r) :
    Pipeline.run env mem [c] =
      { decisions := [
          { claim_id := c.id
            action := r.action
            original_claim := c.text
            corrected_claim := r.corrected_claim
            evidence_urls := r.evidence_urls
            confidence := r.confidence
            reasoning := "From cache" }]
        mem := mem
        retrieval_calls := 0
        scoring_calls := 0 } := by
  simp [Pipeline.run, Pipeline.check_memory, Pipeline.retrieve_evidence,
    Pipeline.verify_claims, Pipeline.apply_policy, Pipeline.update_memory,
    Pipeline.idLookup, h]

/-- A single-claim run on a cache miss: one retrieval happens, the single
decision is produced by the policy, keeps the claim's id and text, carries
no correction, and is persisted into the cache keyed by the claim text. -/
lemma run_single_uncached (env : Pipeline.RunEnv) (mem : MemoryStore.Mem)
    (c : Claim) (h : MemoryStore.check_claim mem c.text = none) :
    ∃ d1 : Decision,
      (Pipeline.run env mem [c]).decisions = [d1]
      ∧ d1.claim_id = c.id
      ∧ d1.original_claim = c.text
      ∧ d1.corrected_claim = none
      ∧ (Pipeline.run env mem [c]).retrieval_calls = 1
      ∧ MemoryStore.check_claim (Pipeline.run env mem [c]).mem c.text =
          some { action := d1.action, corrected_claim := d1.corrected_claim,
                 evidence_urls := d1.evidence_urls,
                 confidence := d1.confidence } := by
  by_cases hev : env.retrieve c.text = []
  · refine ⟨AdaptiveDecisionPolicy.decide c
      { claim_id := c.id, support_score := 0, contradiction_score := 0,
        neutral_score := 1, evidence_agreement := 0,
        source_count := ((env.retrieve c.text).length : ℤ),
        evidence_ids := (env.retrieve c.text).map (·.source_url) }
      (env.retrieve c.text), ?_, rfl, rfl, rfl, ?_, ?_⟩ <;>
    simp [Pipeline.run, Pipeline.check_memory, Pipeline.retrieve_evidence,
      Pipeline.verify_claims, Pipeline.apply_policy, Pipeline.update_memory,
      Pipeline.idLookup, MemoryStore.store_verification,
      MemoryStore.check_claim, AdaptiveDecisionPolicy.decide, h, hev]
  · refine ⟨AdaptiveDecisionPolicy.decide c
      (NLIVerifier.verify (env.scorer c.text (env.retrieve c.text)) c.id
        c.text (env.retrieve c.text))
      (env.retrieve c.text), ?_, rfl, rfl, rfl, ?_, ?_⟩ <;>
    simp [Pipeline.run, Pipeline.check_memory, Pipeline.retrieve_evidence,
      Pipeline.verify_claims, Pipeline.apply_policy, Pipeline.update_memory,
      Pipeline.idLookup, MemoryStore.store_verification,
      MemoryStore.check_claim, AdaptiveDecisionPolicy.decide, h, hev]

/-- C7 (amended): re-running the pipeline on the same single claim after a
first run stored its decision performs zero retrieval and zero scoring
invocations and yields a Decision agreeing with the first run's on every
field except `reasoning`, which becomes "From cache". -/
theorem cache_idempotent_amended (env : Pipeline.RunEnv) (c : Claim) :
    ∃ d1 d2 : Decision,
      (Pipeline.run env [] [c]).decisions = [d1]
      ∧ (Pipeline.run env (Pipeline.run env [] [c]).mem [c]).decisions = [d2]
      ∧ d2.claim_id = d1.claim_id
      ∧ d2.action = d1.action
      ∧ d2.original_claim = d1.original_claim
      ∧ d2.corrected_claim = d1.corrected_claim
      ∧ d2.evidence_urls = d1.evidence_urls
      ∧ d2.confidence = d1.confidence
      ∧ d2.reasoning = "From cache"
      ∧ (Pipeline.run env (Pipeline.run env [] [c]).mem [c]).retrieval_calls = 0
      ∧ (Pipeline.run env (Pipeline.run env [] [c]).mem [c]).scoring_calls = 0 := by
  obtain ⟨d1, hd1, hid, horig, hcorr, _, hmem⟩ :=
    run_single_uncached env [] c rfl
  have h2 := run_single_cached env (Pipeline.run env [] [c]).mem c _ hmem
  refine ⟨d1,
    { claim_id := c.id, action := d1.action, original_claim := c.text,
      corrected_claim := d1.corrected_claim,
      evidence_urls := d1.evidence_urls, confidence := d1.confidence,
      reasoning := "From cache" },
    hd1, ?_, hid.symm, rfl, horig.symm, rfl, rfl, rfl, rfl, ?_, ?_⟩
  · rw [h2]
  · rw [h2]
  · rw [h2]

/-- First concrete run: the claim is uncached, retrieval finds nothing, the
policy abstains with the policy's own reasoning string. -/
lemma run1_concrete :
    Pipeline.run env0 [] [c0] =
      { decisions := [d1c]
        mem := [(c0.text, { action := "ABSTAIN", corrected_claim := none,
                            evidence_urls := [], confidence := 0 })]
        retrieval_calls := 1
        scoring_calls := 0 } := by
  have hact := default_action_abstain "c0"
  simp [Pipeline.run, Pipeline.check_memory, Pipeline.retrieve_evidence,
    Pipeline.verify_claims, Pipeline.apply_policy, Pipeline.update_memory,
    Pipeline.idLookup, MemoryStore.check_claim,
    MemoryStore.store_verification, AdaptiveDecisionPolicy.decide,
    AdaptiveDecisionPolicy.reasoning, env0, c0, d1c, hact]

/-- C7 counterexample: the second run's Decision for the same claim text is
not equal to the first run's Decision — its `reasoning` field is
"From cache" instead of the policy's reasoning — so re-verification does
not yield the same Decision record. -/
theorem cached_decision_not_identical_cex :
    ((Pipeline.run env0 [] [c0]).decisions.map (·.reasoning)) =
        ["Insufficient evidence confidence."]
    ∧ ((Pipeline.run env0 (Pipeline.run env0 [] [c0]).mem [c0]).decisions.map
        (·.reasoning)) = ["From cache"]
    ∧ (Pipeline.run env0 (Pipeline.run env0 [] [c0]).mem [c0]).decisions ≠
        (Pipeline.run env0 [] [c0]).decisions := by
  have hmem : MemoryStore.check_claim (Pipeline.run env0 [] [c0]).mem c0.text =
      some { action := "ABSTAIN", corrected_claim := none,
             evidence_urls := [], confidence := 0 } := by
    rw [run1_concrete]
    simp [MemoryStore.check_claim]
  have h2 := run_single_cached env0 (Pipeline.run env0 [] [c0]).mem c0 _ hmem
  refine ⟨?_, ?_, ?_⟩
  · rw [run1_concrete]
    rfl
  · rw [h2]
    rfl
  · rw [h2, run1_concrete]
    simp [c0, d1c]

/-- C9: an uncached claim whose retrieval yields no evidence is never
scored; the policy stage builds the default verification result (support
0, contradiction 0, neutral 1, agreement 0, source count 0) and the
resulting decision is ABSTAIN. -/
theorem empty_evidence_abstain (env : Pipeline.RunEnv)
    (mem : MemoryStore.Mem) (c : Claim)
    (hmem : MemoryStore.check_claim mem c.text = none)
    (hret : env.retrieve c.text = []) :
    (Pipeline.run env mem [c]).scoring_calls = 0
    ∧ (Pipeline.run env mem [c]).decisions =
        [AdaptiveDecisionPolicy.decide c
          { claim_id := c.id, support_score := 0, contradiction_score := 0,
            neutral_score := 1, evidence_agreement := 0, source_count := 0,
            evidence_ids := [] } []]
    ∧ ((Pipeline.run env mem [c]).decisions.map (·.action)) = ["ABSTAIN"] := by
  refine ⟨?_, ?_, ?_⟩ <;>
  simp [Pipeline.run, Pipeline.check_memory, Pipeline.retrieve_evidence,
    Pipeline.verify_claims, Pipeline.apply_policy, Pipeline.idLookup,
    MemoryStore.check_claim, AdaptiveDecisionPolicy.decide,
    hmem, hret, default_action_abstain]

/-- Witness for C9 at the concrete environment and claim. -/
theorem empty_evidence_abstain_witness :
    MemoryStore.check_claim [] c0.text = none
    ∧ env0.retrieve c0.text = []
    ∧ ((Pipeline.run env0 [] [c0]).scoring_calls = 0
      ∧ (Pipeline.run env0 [] [c0]).decisions =
          [AdaptiveDecisionPolicy.decide c0
            { claim_id := c0.id, support_score := 0, contradiction_score := 0,
              neutral_score := 1, evidence_agreement := 0, source_count := 0,
              evidence_ids := [] } []]
      ∧ ((Pipeline.run env0 [] [c0]).decisions.map (·.action)) = ["ABSTAIN"]) :=
  ⟨rfl, rfl, empty_evidence_abstain env0 [] c0 rfl rfl⟩

/-- Folding the correction-replacement step over decisions that all carry
no corrected claim leaves the answer untouched. -/
lemma fold_replace_no_correction (ds : List Decision)
    (h : ∀ d ∈ ds, d.corrected_claim = none) (raw : Str) :
    ds.foldl (fun a d =>
      if d.action = "CORRECT" ∧ Pipeline.optTruthy d.corrected_claim then
        pyReplace a d.original_claim
          ((d.corrected_claim.getD []) ++ strN " [CORRECTED]")
      else a) raw = raw := by
  induction ds generalizing raw with
  | nil => rfl
  | cons d t ih =>
    have hd : d.corrected_claim = none := h d (List.mem_cons_self d t)
    have hcond : ¬(d.action = "CORRECT"
        ∧ Pipeline.optTruthy d.corrected_claim = true) := by
      rw [hd]
      simp [Pipeline.optTruthy]
    rw [List.foldl_cons, if_neg hcond]
    exact ih (fun x hx => h x (List.mem_cons_of_mem d hx)) raw

/-- C10: every Decision built by the policy's `decide` has no corrected
claim, so in a run whose decisions all come from `decide` (no cache hits)
the assembler's replacement branch never fires and the verified answer is
character-for-character the raw generated text. -/
theorem decide_no_correction_identity (raw : Str) (ds : List Decision)
    (h : ∀ d ∈ ds, ∃ c v ev, d = AdaptiveDecisionPolicy.decide c v ev) :
    (∀ (c : Claim) (v : VerificationResult) (ev : List Evidence),
      (AdaptiveDecisionPolicy.decide c v ev).corrected_claim = none)
    ∧ (Pipeline.assemble_answer raw ds).verified_answer = raw := by
  refine ⟨fun c v ev => rfl, ?_⟩
  have hnone : ∀ d ∈ ds, d.corrected_claim = none := by
    intro d hd
    obtain ⟨c, v, ev, rfl⟩ := h d hd
    rfl
  have hfold : (Pipeline.assemble_answer raw ds).verified_answer =
      ds.foldl (fun a d =>
        if d.action = "CORRECT" ∧ Pipeline.optTruthy d.corrected_claim then
          pyReplace a d.original_claim
            ((d.corrected_claim.getD []) ++ strN " [CORRECTED]")
        else a) raw := assemble_fold_fst ds raw []
  rw [hfold]
  exact fold_replace_no_correction ds hnone raw

/-- Witness for C10 at a concrete answer and decision list. -/
theorem decide_no_correction_identity_witness :
    (∀ d ∈ [AdaptiveDecisionPolicy.decide c0 vr0 []],
        ∃ c v ev, d = AdaptiveDecisionPolicy.decide c v ev)
    ∧ ((∀ (c : Claim) (v : VerificationResult) (ev : List Evidence),
        (AdaptiveDecisionPolicy.decide c v ev).corrected_claim = none)
      ∧ (Pipeline.assemble_answer (strN "Hello there")
          [AdaptiveDecisionPolicy.decide c0 vr0 []]).verified_answer =
          strN "Hello there") :=
  ⟨fun _ hd => ⟨c0, vr0, [], List.mem_singleton.mp hd⟩,
    decide_no_correction_identity (strN "Hello there")
      [AdaptiveDecisionPolicy.decide c0 vr0 []]
      (fun _ hd => ⟨c0, vr0, [], List.mem_singleton.mp hd⟩)⟩

/-- C8 counterexample: on `x {"a": 1} y }` the code's greedy first-`{` to
last-`}` extraction spans `{"a": 1} y }`, which fails to parse, so
`_parse_json` fails — while extracting the first balanced-brace substring
`{"a": 1}` succeeds, so the claimed behaviour differs from the code. -/
theorem parse_json_balanced_cex :
    NLIVerifier.parse_json cex8 = none
    ∧ parse_json_spec cex8 = some (.obj [(strN "a", .num 1)]) :=
  ⟨rfl, rfl⟩

/-- C8 (amended): the parser returns a value exactly when the direct parse
succeeds or, the direct parse failing, the greedy first-`{`-to-last-`}`
span parses; the returned value is the direct parse when it succeeds and
otherwise the span's parse. -/
theorem parse_json_amended (text : Str) :
    (∀ v : Json.JsonVal, NLIVerifier.parse_json text = some v ↔
      (Json.loads text = some v
        ∨ (Json.loads text = none
          ∧ ∃ sub, NLIVerifier.regexSpan text = some sub
            ∧ Json.loads sub = some v)))
    ∧ (NLIVerifier.parse_json text = none ↔
        (Json.loads text = none
          ∧ ∀ sub, NLIVerifier.regexSpan text = some sub →
              Json.loads sub = none)) := by
  unfold NLIVerifier.parse_json
  cases hl : Json.loads text with
  | some v =>
    constructor
    · intro w
      simp
    · simp
  | none =>
    cases hs : NLIVerifier.regexSpan text with
    | none =>
      constructor
      · intro w
        simp
      · simp
    | some sub =>
      constructor
      · intro w
        cases hsub : Json.loads sub <;> simp [hsub]
      · cases hsub : Json.loads sub <;> simp [hsub]

end HalluShield
